import Mathlib

/-
Verification of src/Chatbot/Chatbot.py (agentic RAG chatbot).

Shallow embedding notes:
- External collaborators (the LLM chains, the FAISS vector store, DuckDuckGo)
  are modelled by an `Oracle` record of functions returning `Except String`;
  a Python exception raised by a collaborator call is the `.error` case.
- Python dict state (`GraphState` TypedDict, the per-session dicts) is
  modelled with `Option` fields: `none` models an absent key.
- Wall-clock timestamps (`datetime.now()`) are abstracted away; float
  relevance scores are abstracted to `Int` (only their ordering is used).
- Fallible Python code is modelled as `Except String` values; a `try/except`
  block is a `match` on the `Except` of its body.
-/

/-- Python enum `ErrorType` (Chatbot.py lines 43-50). -/
inductive ErrorType
  | retrieval_error
  | generation_error
  | grading_error
  | search_error
  | validation_error
  | network_error
  | system_error
deriving DecidableEq, Repr

/-- Python enum `ProcessingState` (Chatbot.py lines 53-62). -/
inductive ProcessingState
  | initialized
  | retrieving
  | grading
  | generating
  | transforming
  | searching
  | completed
  | failed
  | retrying
deriving DecidableEq, Repr

/-- Python dataclass `SystemError` (Chatbot.py lines 72-79).
The `timestamp` field (wall-clock time) is abstracted away. -/
structure SystemError where
  error_type : ErrorType
  message : String
  node : String
  retry_count : Nat
  recoverable : Bool
deriving DecidableEq, Repr

/-- Builds a `SystemError` the way the nodes do: `retry_count` defaults to 0
and `recoverable` to `True` (the dataclass defaults). -/
def mkSystemError (et : ErrorType) (msg : String) (node : String) : SystemError :=
  ⟨et, msg, node, 0, true⟩

/-- One entry of `StateManager.session_states` (Chatbot.py lines 100-109).
The `start_time`, `last_activity` and `context` entries are abstracted away:
no claim depends on them and the workflow never reads them. -/
structure SessionState where
  state : ProcessingState
  errors : List SystemError
  retry_count : Nat
  consecutive_failures : Nat
deriving DecidableEq, Repr

/-- The dict created by `initialize_session` for an unseen id. -/
def freshSession : SessionState :=
  { state := .initialized, errors := [], retry_count := 0, consecutive_failures := 0 }

/-- `StateManager.session_states`: a string-keyed map, as an association list. -/
abbrev StateManager := List (String × SessionState)

/-- `StateManager.max_retry_attempts`, set to 3 in `__init__` and never mutated. -/
def max_retry_attempts : Nat := 3

/-- Python `self.session_states.get(session_id)` - lookup without creation. -/
def smLookup : StateManager → String → Option SessionState
  | [], _ => none
  | (k, v) :: rest, id => if k = id then some v else smLookup rest id

/-- Store `s` under `id`, replacing an existing entry or appending a new one. -/
def smSet : StateManager → String → SessionState → StateManager
  | [], id, s => [(id, s)]
  | (k, v) :: rest, id, s => if k = id then (id, s) :: rest else (k, v) :: smSet rest id s

/-- `StateManager.initialize_session` (lines 99-110): lazily creates the default
session dict, returning the store and the (existing or fresh) session. -/
def getOrInit (sm : StateManager) (id : String) : StateManager × SessionState :=
  match smLookup sm id with
  | some s => (sm, s)
  | none => (smSet sm id freshSession, freshSession)

/-- `initialize_session` viewed as a store update (its return value is the
mutable dict; mutations are modelled by the other operations). -/
def init_session (sm : StateManager) (id : String) : StateManager :=
  (getOrInit sm id).1

/-- `StateManager.update_state` (lines 112-117): sets the `state` entry.
`last_activity` and the `context` merge are abstracted away. -/
def update_state (sm : StateManager) (id : String) (ps : ProcessingState) : StateManager :=
  let (sm, s) := getOrInit sm id
  smSet sm id { s with state := ps }

/-- `StateManager.log_error` (lines 119-126): appends the error, increments
`consecutive_failures`, then truncates the error list to the last 5 entries
when it exceeds 5. -/
def log_error (sm : StateManager) (id : String) (e : SystemError) : StateManager :=
  let (sm, s) := getOrInit sm id
  let errs := s.errors ++ [e]
  let errs := if 5 < errs.length then errs.drop (errs.length - 5) else errs
  smSet sm id { s with errors := errs, consecutive_failures := s.consecutive_failures + 1 }

/-- `StateManager.should_retry` (lines 128-136). Reads the counters with
dict-`get` defaults (no session creation). -/
def should_retry (sm : StateManager) (id : String) (error_type : ErrorType) : Bool :=
  let retry_count := match smLookup sm id with | some s => s.retry_count | none => 0
  let consecutive_failures :=
    match smLookup sm id with | some s => s.consecutive_failures | none => 0
  if error_type = ErrorType.validation_error || 3 ≤ consecutive_failures then false
  else retry_count < max_retry_attempts

/-- `StateManager.increment_retry` (lines 138-140). -/
def increment_retry (sm : StateManager) (id : String) : StateManager :=
  let (sm, s) := getOrInit sm id
  smSet sm id { s with retry_count := s.retry_count + 1 }

/-- `StateManager.reset_failures` (lines 142-145): zeroes both counters. -/
def reset_failures (sm : StateManager) (id : String) : StateManager :=
  let (sm, s) := getOrInit sm id
  smSet sm id { s with consecutive_failures := 0, retry_count := 0 }

/-- The dict returned by `get_session_health`. -/
structure SessionHealth where
  healthy : Bool
  consecutive_failures : Nat
  retry_count : Nat
deriving DecidableEq, Repr

/-- `StateManager.get_session_health` (lines 147-156): healthy iff fewer than
5 consecutive failures; reads with dict-`get` defaults, creating nothing. -/
def get_session_health (sm : StateManager) (id : String) : SessionHealth :=
  let consecutive_failures :=
    match smLookup sm id with | some s => s.consecutive_failures | none => 0
  { healthy := consecutive_failures < 5
    consecutive_failures := consecutive_failures
    retry_count := match smLookup sm id with | some s => s.retry_count | none => 0 }

/-- View: the consecutive-failure counter of a session (0 when absent). -/
def cfOf (sm : StateManager) (id : String) : Nat :=
  match smLookup sm id with | some s => s.consecutive_failures | none => 0

/-- View: the retry counter of a session (0 when absent). -/
def rcOf (sm : StateManager) (id : String) : Nat :=
  match smLookup sm id with | some s => s.retry_count | none => 0

/-- View: the error list of a session (empty when absent). -/
def errorsOf (sm : StateManager) (id : String) : List SystemError :=
  match smLookup sm id with | some s => s.errors | none => []

/-- The last five elements of a list (all of it when it is shorter). -/
def lastFive (l : List SystemError) : List SystemError :=
  l.drop (l.length - 5)

/-- A sequence of `log_error` calls for one session, oldest first. -/
def logErrors (sm : StateManager) (id : String) (es : List SystemError) : StateManager :=
  es.foldl (fun acc e => log_error acc id e) sm

/-- A langchain `Document` (lines produced by the loaders and `DDGS`):
`page_content` plus its `metadata["source"]` attribution. -/
structure Document where
  page_content : String
  source : String
deriving DecidableEq, Repr

/-- Python whitespace for `str.strip()` (the characters the corpus uses). -/
def isPySpace (c : Char) : Bool :=
  c == ' ' || c == '\t' || c == '\n' || c == '\r'

/-- Python `s.strip()`: drop whitespace from both ends. -/
def pyStrip (s : String) : String :=
  ⟨((s.data.dropWhile isPySpace).reverse.dropWhile isPySpace).reverse⟩

/-- Python `s.lower()`. -/
def pyLower (s : String) : String :=
  ⟨s.data.map Char.toLower⟩

/-- Helper for `pySplitLines`: accumulate the current line (reversed). -/
def splitLinesAux : List Char → List Char → List String
  | [], acc => [⟨acc.reverse⟩]
  | c :: rest, acc =>
    if c == '\n' then ⟨acc.reverse⟩ :: splitLinesAux rest []
    else splitLinesAux rest (c :: acc)

/-- Python `s.split('\n')` (keeps empty segments, like Python). -/
def pySplitLines (s : String) : List String :=
  splitLinesAux s.data []

/-- The external collaborators of `AgenticRAG`, one field per call site.
Each field is one LLM chain / vector-store / web-search invocation; the
`.error` case models that call raising a Python exception. -/
structure Oracle where
  /-- `classify_query`: `prompt | llm | StrOutputParser` (lines 788-798). -/
  classify_chain : String → Except String String
  /-- `retrieve_factual`: the query-enhancement chain (lines 814-819). -/
  enhance_query : String → Except String String
  /-- `self.vectorstore.similarity_search(query, k)`. -/
  similarity_search : String → Nat → Except String (List Document)
  /-- `retrieve_factual`: the 1-10 `RelevantScore` ranking chain (score as `Int`). -/
  relevance_score : String → Document → Except String Int
  /-- `retrieve_analytical`: the `SubQueries` chain (lines 857-862). -/
  sub_queries_chain : String → Nat → Except String (List String)
  /-- `SelectedIndices` chains of `retrieve_analytical` / `retrieve_opinion`:
  Python `List[int]`, so the indices are `Int` (negative values possible). -/
  select_indices : String → String → Nat → Except String (List Int)
  /-- `retrieve_opinion`: the viewpoints chain, raw `.content` text (line 892). -/
  viewpoints_chain : String → Nat → Except String String
  /-- `retrieve_contextual`: the query-reformulation chain (lines 920-924). -/
  contextualize_chain : String → String → Except String String
  /-- `retrieve_contextual`: the context-aware 1-10 ranking chain. -/
  contextual_score : String → String → Document → Except String Int
  /-- `self.retrieval_grader.invoke({question, document})`, the `binary_score`. -/
  retrieval_grade : String → String → Except String String
  /-- `self.hallucination_grader.invoke({documents, generation})`, `binary_score`. -/
  hallucination_grade : List Document → String → Except String String
  /-- `self.answer_grader.invoke({question, generation})`, the `binary_score`. -/
  answer_grade : String → String → Except String String
  /-- `self.question_rewriter.invoke({question})`. -/
  rewrite_chain : String → Except String String
  /-- `ddgs.text(query, max_results)`: raw results as (optional body, href). -/
  ddgs_text : String → Nat → Except String (List (Option String × String))
  /-- `hub.pull("rlm/rag-prompt") | llm | StrOutputParser` applied to
  `{context: documents, question}` (lines 1108-1112); a failure of `hub.pull`
  itself is also this call raising. -/
  rag_chain : List Document → String → Except String String
  /-- `self.llm.invoke(simple_prompt).content`, the plain fallback generation. -/
  llm_simple : String → Except String String

/-- `classify_query` (lines 785-802): trimmed chain output, `"Factual"` on any
exception. -/
def classify_query (o : Oracle) (query : String) : String :=
  match o.classify_chain query with
  | .ok result => pyStrip result
  | .error _ => "Factual"

/-- Stable insertion into a score-descending list (Python
`ranked_docs.sort(key=lambda x: x[1], reverse=True)`). -/
def insertDesc (p : Document × Int) : List (Document × Int) → List (Document × Int)
  | [] => [p]
  | q :: rest => if q.2 < p.2 then p :: q :: rest else q :: insertDesc p rest

/-- Score-descending sort of (document, score) pairs. -/
def sortDesc : List (Document × Int) → List (Document × Int)
  | [] => []
  | p :: rest => insertDesc p (sortDesc rest)

/-- `retrieve_factual` (lines 810-851): enhance the query, pull `2k` similar
documents, score each (default score 5 when an individual scoring call fails),
sort descending and keep the top `k`; any other exception falls back to plain
similarity search for `k` (which may itself raise, propagating). -/
def retrieve_factual (o : Oracle) (query : String) (k : Nat) : Except String (List Document) :=
  match o.enhance_query query with
  | .error _ => o.similarity_search query k
  | .ok enhanced_query =>
    match o.similarity_search enhanced_query (k * 2) with
    | .error _ => o.similarity_search query k
    | .ok docs =>
      let ranked_docs := docs.map (fun d =>
        match o.relevance_score enhanced_query d with
        | .ok score => (d, score)
        | .error _ => (d, 5))
      .ok (((sortDesc ranked_docs).take k).map Prod.fst)

/-- `all_docs.extend(self.vectorstore.similarity_search(q, k=2))` folded over a
list of sub-queries, in order; a raising search propagates. -/
def gatherDocs (o : Oracle) : List String → Nat → Except String (List Document)
  | [], _ => .ok []
  | q :: rest, k =>
    match o.similarity_search q k with
    | .error e => .error e
    | .ok ds =>
      match gatherDocs o rest k with
      | .error e => .error e
      | .ok more => .ok (ds ++ more)

/-- The enumerated, truncated document listing fed to the selection chains
(`"\n".join(f"{i}: {doc.page_content[:n]}...")`). -/
def docsText (n : Nat) (docs : List Document) : String :=
  String.intercalate "\n"
    (docs.enum.map (fun p => toString p.1 ++ ": " ++ p.2.page_content.take n ++ "..."))

/-- Python list indexing `xs[i]` for `i : Int`: negative indices count from the
end; out-of-range access raises `IndexError`. -/
def pyIndex (xs : List Document) (i : Int) : Except String Document :=
  if 0 ≤ i then
    match xs.get? i.toNat with
    | some d => .ok d
    | none => .error "IndexError"
  else
    match xs.get? (xs.length + i).toNat with
    | some d => if (0 : Int) ≤ (xs.length : Int) + i then .ok d else .error "IndexError"
    | none => .error "IndexError"

/-- `[all_docs[i] for i in selected_indices if i < len(all_docs)]`: indices at
or beyond the length are silently dropped; remaining indices use Python
indexing (so a negative index below `-len` raises). -/
def pySelect (xs : List Document) : List Int → Except String (List Document)
  | [] => .ok []
  | i :: rest =>
    if i < (xs.length : Int) then
      match pyIndex xs i with
      | .error e => .error e
      | .ok d =>
        match pySelect xs rest with
        | .error e => .error e
        | .ok ds => .ok (d :: ds)
    else pySelect xs rest

/-- `retrieve_analytical` (lines 853-882): `k` sub-questions, top-2 chunks per
sub-question pooled in order, oracle-selected indices (no count cap), filtered
by `i < len(all_docs)`; any exception falls back to plain similarity search. -/
def retrieve_analytical (o : Oracle) (query : String) (k : Nat) :
    Except String (List Document) :=
  match o.sub_queries_chain query k with
  | .error _ => o.similarity_search query k
  | .ok sub_queries =>
    match gatherDocs o sub_queries 2 with
    | .error _ => o.similarity_search query k
    | .ok all_docs =>
      match o.select_indices query (docsText 50 all_docs) k with
      | .error _ => o.similarity_search query k
      | .ok selected_indices =>
        match pySelect all_docs selected_indices with
        | .error _ => o.similarity_search query k
        | .ok sel => .ok sel

/-- `retrieve_opinion` (lines 884-912): viewpoint text split on newlines,
top-2 chunks per viewpoint-augmented query pooled, oracle-selected indices;
any exception falls back to plain similarity search. -/
def retrieve_opinion (o : Oracle) (query : String) (k : Nat) :
    Except String (List Document) :=
  match o.viewpoints_chain query k with
  | .error _ => o.similarity_search query k
  | .ok vtext =>
    let viewpoints := pySplitLines vtext
    match gatherDocs o (viewpoints.map (fun vp => query ++ " " ++ vp)) 2 with
    | .error _ => o.similarity_search query k
    | .ok all_docs =>
      match o.select_indices query (docsText 100 all_docs) k with
      | .error _ => o.similarity_search query k
      | .ok selected_indices =>
        match pySelect all_docs selected_indices with
        | .error _ => o.similarity_search query k
        | .ok sel => .ok sel

/-- Scoring loop of `retrieve_contextual` (lines 935-939): no per-document
handler, so one failing scoring call aborts the whole branch. -/
def mapScores (o : Oracle) (cq ctx : String) : List Document →
    Except String (List (Document × Int))
  | [] => .ok []
  | d :: rest =>
    match o.contextual_score cq ctx d with
    | .error e => .error e
    | .ok score =>
      match mapScores o cq ctx rest with
      | .error e => .error e
      | .ok more => .ok ((d, score) :: more)

/-- `retrieve_contextual` (lines 914-946): fold the user context (Python
`user_context or "No specific context provided"`, so the empty string also
defaults) into a reformulated query, pull `2k` similar documents, score all,
sort descending, keep top `k`; any exception falls back to similarity search. -/
def retrieve_contextual (o : Oracle) (query : String) (k : Nat)
    (user_context : Option String) : Except String (List Document) :=
  let context_str := match user_context with
    | some c => if c = "" then "No specific context provided" else c
    | none => "No specific context provided"
  match o.contextualize_chain query context_str with
  | .error _ => o.similarity_search query k
  | .ok contextualized_query =>
    match o.similarity_search contextualized_query (k * 2) with
    | .error _ => o.similarity_search query k
    | .ok docs =>
      match mapScores o contextualized_query context_str docs with
      | .error _ => o.similarity_search query k
      | .ok ranked_docs => .ok (((sortDesc ranked_docs).take k).map Prod.fst)

/-- The category dispatch inside the `try` of `adaptive_retrieve`
(lines 952-967): classify, dispatch to a strategy, or plain similarity search
for an unrecognized category. -/
def dispatch_branch (o : Oracle) (query : String) (k : Nat) (user_context : Option String) :
    Except String (List Document) :=
  let category := classify_query o query
  if category = "Factual" then retrieve_factual o query k
  else if category = "Analytical" then retrieve_analytical o query k
  else if category = "Opinion" then retrieve_opinion o query k
  else if category = "Contextual" then retrieve_contextual o query k user_context
  else o.similarity_search query k

/-- `adaptive_retrieve` (lines 950-975): the dispatch under a catch-all that
falls back to plain similarity search, and to the empty list when even that
raises. The result is always `.ok`. -/
def adaptive_retrieve (o : Oracle) (query : String) (k : Nat)
    (user_context : Option String) : Except String (List Document) :=
  match dispatch_branch o query k user_context with
  | .ok docs => .ok docs
  | .error _ =>
    match o.similarity_search query k with
    | .ok docs => .ok docs
    | .error _ => .ok []

/-- The result-collection loop of `duckduckgo_search`: keep entries with a
`body`, stopping once `max_results` documents are collected. -/
def collectResults : List (Option String × String) → List Document → Nat → List Document
  | [], acc, _ => acc
  | (body, href) :: rest, acc, maxR =>
    match body with
    | some b =>
      let acc := acc ++ [{ page_content := b, source := href }]
      if maxR ≤ acc.length then acc else collectResults rest acc maxR
    | none => collectResults rest acc maxR

/-- `duckduckgo_search` (lines 978-995): web search returning at most
`max_results` snippets, and the empty list on any exception. -/
def duckduckgo_search (o : Oracle) (query : String) (max_results : Nat) : List Document :=
  match o.ddgs_text query max_results with
  | .ok results => collectResults results [] max_results
  | .error _ => []

/-- The `GraphState` TypedDict (lines 728-734) flowing through the langgraph
workflow. Every field is optional: `none` models an absent dict key (reading an
absent key with `state["k"]` raises `KeyError`). The declared `retry_count` key
is omitted: no node or edge ever reads or writes it. -/
structure GraphState where
  question : Option String
  generation : Option String
  documents : Option (List Document)
  session_id : Option String
  error_message : Option String
deriving DecidableEq, Repr

/-- The state with no keys set. -/
def emptyGraphState : GraphState :=
  { question := none, generation := none, documents := none,
    session_id := none, error_message := none }

/-- langgraph merge of a node return value into the channel state: keys present
in the update overwrite, absent keys keep their previous value. -/
def mergeState (st upd : GraphState) : GraphState :=
  { question := upd.question <|> st.question
    generation := upd.generation <|> st.generation
    documents := upd.documents <|> st.documents
    session_id := upd.session_id <|> st.session_id
    error_message := upd.error_message <|> st.error_message }

/-- Canned text of line 1011. -/
def no_docs_found_message : String := "No documents found for your query."

/-- Canned text of line 1028. -/
def retrieval_trouble_message : String :=
  "I\x27m having trouble finding relevant information. Let me try a different approach."

/-- Canned text of line 1050. -/
def no_relevant_info_message : String :=
  "I couldn\x27t find relevant information for your question."

/-- Canned text of line 1104 (generation for an empty document list). -/
def no_info_message : String :=
  "I apologize, but I don\x27t have enough information to answer your question properly. Could you please rephrase your question or provide more context?"

/-- Canned text of line 1115 (generated text shorter than 10 characters). -/
def incomplete_generation_message : String :=
  "I found some relevant information but couldn\x27t generate a complete response. Could you please ask your question in a different way?"

/-- Canned text of line 1145 (both generation attempts raised). -/
def technical_difficulties_message : String :=
  "I\x27m experiencing some technical difficulties generating a response. Please try asking your question again, or rephrase it for better results."

/-- Canned text of line 1252 (question shorter than 3 trimmed characters). -/
def clarification_message : String :=
  "Please provide a more specific question so I can help you better."

/-- Canned text of line 1258 (unhealthy session). -/
def new_conversation_message : String :=
  "I\x27m experiencing some issues. Please try starting a new conversation."

/-- Canned text of line 1293 (final generation shorter than 10 characters). -/
def short_answer_message : String :=
  "I found some information but couldn\x27t provide a complete answer. Could you please rephrase your question?"

/-- Canned text of line 1300 (no generation found in the workflow output). -/
def trouble_processing_message : String :=
  "I\x27m having trouble processing your question right now. Please try rephrasing it or ask something else."

/-- Retry prefix of line 1310. -/
def retry_prefix : String := "Let me try that again... "

/-- Canned text of line 1313 (retry budget exhausted). -/
def max_retries_message : String :=
  "I\x27m having trouble answering your question. Please try asking something else or rephrase your question."

/-- Canned text of line 1318 (outermost handler of `generate_response`). -/
def outer_failure_message : String :=
  "I\x27m experiencing technical difficulties. Please try your question again."

/-- `safe_retrieve` (lines 997-1028). With no `question` key, the first line of
the `try` raises `KeyError`; the handler logs a `RETRIEVAL_ERROR` and then its
return expression reads `state["question"]` again, re-raising `KeyError` out of
the node. With a question present the node cannot raise: `adaptive_retrieve`
never raises (its own catch-all), and the handler path is then complete. -/
def safe_retrieve (o : Oracle) (sm : StateManager) (state : GraphState) :
    StateManager × Except String GraphState :=
  match state.question with
  | none =>
    let session_id := state.session_id.getD "default"
    let sm := log_error sm session_id
      (mkSystemError .retrieval_error "KeyError: question" "retrieve")
    (sm, .error "KeyError: question")
  | some question =>
    let session_id := state.session_id.getD "default"
    let sm := update_state sm session_id .retrieving
    match adaptive_retrieve o question 4 none with
    | .error _ =>
      let sm := log_error sm session_id
        (mkSystemError .retrieval_error "retrieval raised" "retrieve")
      (sm, .ok { emptyGraphState with
                  documents := some []
                  question := some question
                  session_id := some session_id
                  error_message := some retrieval_trouble_message })
    | .ok documents =>
      if documents.isEmpty then
        (sm, .ok { emptyGraphState with
                    documents := some []
                    question := some question
                    session_id := some session_id
                    error_message := some no_docs_found_message })
      else
        (sm, .ok { emptyGraphState with
                    documents := some documents
                    question := some question
                    session_id := some session_id })

/-- The per-document relevance filter of `safe_grade_documents` (lines
1052-1066): keep a document when the grader answers `"yes"`, and also when the
grading call itself raises (fail-open). -/
def keepDocument (o : Oracle) (question : String) (d : Document) : Bool :=
  match o.retrieval_grade question d.page_content with
  | .ok score => score == "yes"
  | .error _ => true

/-- `safe_grade_documents` (lines 1030-1089). With no `question` key the `try`
raises before the local `question` is bound; the handler logs a
`GRADING_ERROR` and then its return expression references the unbound local
`question`, raising `UnboundLocalError` out of the node. With a question but no
`documents` key, the handler completes (the local is bound) and returns a
best-effort state. Otherwise: empty documents trigger the web-search fallback;
nonempty documents are relevance-filtered fail-open, with web search and then
`documents[:2]` as fallbacks when nothing survives. -/
def safe_grade_documents (o : Oracle) (sm : StateManager) (state : GraphState) :
    StateManager × Except String GraphState :=
  match state.question with
  | none =>
    let session_id := state.session_id.getD "default"
    let sm := log_error sm session_id
      (mkSystemError .grading_error "KeyError: question" "grade_documents")
    (sm, .error "UnboundLocalError: question")
  | some question =>
    match state.documents with
    | none =>
      let session_id := state.session_id.getD "default"
      let sm := log_error sm session_id
        (mkSystemError .grading_error "KeyError: documents" "grade_documents")
      (sm, .ok { emptyGraphState with
                  documents := some []
                  question := some question
                  session_id := some session_id })
    | some documents =>
      let session_id := state.session_id.getD "default"
      let sm := update_state sm session_id .grading
      if documents.isEmpty then
        let search_docs := duckduckgo_search o question 3
        if search_docs.isEmpty then
          (sm, .ok { emptyGraphState with
                      documents := some []
                      question := some question
                      session_id := some session_id
                      error_message := some no_relevant_info_message })
        else
          (sm, .ok { emptyGraphState with
                      documents := some search_docs
                      question := some question
                      session_id := some session_id })
      else
        let filtered_docs := documents.filter (keepDocument o question)
        let filtered_docs :=
          if filtered_docs.isEmpty then
            let search_docs := duckduckgo_search o question 3
            if search_docs.isEmpty then documents.take 2 else search_docs
          else filtered_docs
        (sm, .ok { emptyGraphState with
                    documents := some filtered_docs
                    question := some question
                    session_id := some session_id })

/-- The simple fallback prompt of `safe_generate` (lines 1123-1124). -/
def simplePrompt (documents : List Document) (question : String) : String :=
  "Based on this context: "
    ++ String.intercalate "\n" ((documents.take 3).map Document.page_content)
    ++ "\n\nAnswer this question: " ++ question

/-- `safe_generate` (lines 1091-1147). With no `question` key the handler
references the unbound local `question` and the node raises. With a question
but no `documents` key the handler completes (canned technical-difficulty
generation). Empty documents yield the canned no-information generation; a
successful RAG-chain generation shorter than 10 trimmed characters is replaced
by the canned incomplete-response text; a raising RAG chain falls back to a
plain prompt, and if that also raises, the outer handler logs and returns the
canned technical-difficulty generation. -/
def safe_generate (o : Oracle) (sm : StateManager) (state : GraphState) :
    StateManager × Except String GraphState :=
  match state.question with
  | none =>
    let session_id := state.session_id.getD "default"
    let sm := log_error sm session_id
      (mkSystemError .generation_error "KeyError: question" "generate")
    (sm, .error "UnboundLocalError: question")
  | some question =>
    match state.documents with
    | none =>
      let session_id := state.session_id.getD "default"
      let sm := log_error sm session_id
        (mkSystemError .generation_error "KeyError: documents" "generate")
      (sm, .ok { emptyGraphState with
                  documents := some []
                  question := some question
                  generation := some technical_difficulties_message
                  session_id := some session_id })
    | some documents =>
      let session_id := state.session_id.getD "default"
      let sm := update_state sm session_id .generating
      if documents.isEmpty then
        (sm, .ok { emptyGraphState with
                    documents := some documents
                    question := some question
                    session_id := some session_id
                    generation := some no_info_message })
      else
        match o.rag_chain documents question with
        | .ok generation =>
          let generation :=
            if (pyStrip generation).length < 10 then incomplete_generation_message
            else generation
          (sm, .ok { emptyGraphState with
                      documents := some documents
                      question := some question
                      generation := some generation
                      session_id := some session_id })
        | .error _ =>
          match o.llm_simple (simplePrompt documents question) with
          | .ok generation =>
            (sm, .ok { emptyGraphState with
                        documents := some documents
                        question := some question
                        generation := some generation
                        session_id := some session_id })
          | .error _ =>
            let sm := log_error sm session_id
              (mkSystemError .generation_error "generation raised" "generate")
            (sm, .ok { emptyGraphState with
                        documents := some documents
                        question := some question
                        generation := some technical_difficulties_message
                        session_id := some session_id })

/-- `safe_transform_query` (lines 1149-1178). With no `question` key the
handler references the unbound local `question` and the node raises. A raising
rewrite chain logs a `SYSTEM_ERROR` and keeps the original question; a rewrite
shorter than 5 trimmed characters is also discarded. -/
def safe_transform_query (o : Oracle) (sm : StateManager) (state : GraphState) :
    StateManager × Except String GraphState :=
  match state.question with
  | none =>
    let session_id := state.session_id.getD "default"
    let sm := log_error sm session_id
      (mkSystemError .system_error "KeyError: question" "transform_query")
    (sm, .error "UnboundLocalError: question")
  | some question =>
    let session_id := state.session_id.getD "default"
    let sm := update_state sm session_id .transforming
    match o.rewrite_chain question with
    | .ok better_question =>
      let better_question :=
        if (pyStrip better_question).length < 5 then question else better_question
      (sm, .ok { emptyGraphState with
                  documents := some (state.documents.getD [])
                  question := some better_question
                  session_id := some session_id })
    | .error _ =>
      let sm := log_error sm session_id
        (mkSystemError .system_error "rewrite raised" "transform_query")
      (sm, .ok { emptyGraphState with
                  documents := some (state.documents.getD [])
                  question := some question
                  session_id := some session_id })

/-- `decide_to_generate` (lines 1180-1189): transform the query when the
document list is absent or empty, otherwise generate. -/
def decide_to_generate (state : GraphState) : String :=
  if (state.documents.getD []).isEmpty then "transform_query" else "generate"

/-- Prefix test on character lists, for the substring checks below. -/
def listIsPrefix : List Char → List Char → Bool
  | [], _ => true
  | _ :: _, [] => false
  | a :: as, b :: bs => a == b && listIsPrefix as bs

/-- Substring test on character lists (Python `needle in haystack`). -/
def listHasInfix (needle : List Char) : List Char → Bool
  | [] => listIsPrefix needle []
  | b :: bs => listIsPrefix needle (b :: bs) || listHasInfix needle bs

/-- Python `needle in haystack` for strings. -/
def strContains (haystack needle : String) : Bool :=
  listHasInfix needle.data haystack.data

/-- `grade_generation_v_documents_and_question` (lines 1191-1239), the
conditional edge out of the generate node. Reading `question`, `documents` or
`generation` from a state missing that key raises inside the `try`, and the
handler returns `"useful"` without touching the session counters. On the
normal path: an apology/technical-difficulty marker in the generation gives
`"not useful"`; an explicit `"no"` from the hallucination grader gives
`"not supported"` (a raising grader is skipped); an explicit `"no"` from the
answer grader gives `"not useful"` (a raising grader is skipped); otherwise the
verdict is `"useful"` and `reset_failures` zeroes both session counters. -/
def grade_generation_v_documents_and_question (o : Oracle) (sm : StateManager)
    (state : GraphState) : StateManager × String :=
  match state.question, state.documents, state.generation with
  | some question, some documents, some generation =>
    let session_id := state.session_id.getD "default"
    if strContains (pyLower generation) "technical difficulties"
        || strContains (pyLower generation) "apologize" then
      (sm, "not useful")
    else
      let not_supported :=
        match o.hallucination_grade documents generation with
        | .ok score => score == "no"
        | .error _ => false
      if not_supported then (sm, "not supported")
      else
        let not_useful :=
          match o.answer_grade question generation with
          | .ok score => score == "no"
          | .error _ => false
        if not_useful then (sm, "not useful")
        else (reset_failures sm session_id, "useful")
  | _, _, _ => (sm, "useful")

/-- The workflow graph nodes (lines 742-745), plus the `END` sentinel. -/
inductive Node
  | retrieve
  | grade_documents
  | generate
  | transform_query
  | done
deriving DecidableEq, Repr

/-- Executes one graph node on the current channel state, returning the node
return value (the update dict) or the exception it raised. -/
def runNode (o : Oracle) (sm : StateManager) : Node → GraphState →
    StateManager × Except String GraphState
  | .retrieve, st => safe_retrieve o sm st
  | .grade_documents, st => safe_grade_documents o sm st
  | .generate, st => safe_generate o sm st
  | .transform_query, st => safe_transform_query o sm st
  | .done, _ => (sm, .ok emptyGraphState)

/-- The edge map of the compiled graph (lines 747-767): fixed edges
`retrieve → grade_documents` and `transform_query → retrieve`, the
`decide_to_generate` branch out of grading and the generation-quality branch
out of generation (which resets the session counters on `"useful"`). langgraph
evaluates the branch on the merged state as soon as the node finishes. -/
def nextNode (o : Oracle) (sm : StateManager) : Node → GraphState → StateManager × Node
  | .retrieve, _ => (sm, .grade_documents)
  | .grade_documents, st =>
    (sm, if decide_to_generate st = "transform_query" then .transform_query else .generate)
  | .transform_query, _ => (sm, .retrieve)
  | .generate, st =>
    let (sm, verdict) := grade_generation_v_documents_and_question o sm st
    (sm, if verdict = "not supported" then .generate
         else if verdict = "useful" then .done
         else .transform_query)
  | .done, _ => (sm, .done)

/-- The outcome of the streaming driver loop inside `generate_response`
(lines 1266-1285): the final store, the `final_output` (or the exception that
escaped the stream), and the trace of node updates the loop consumed, in
order (its length is the final `step_count`). -/
structure RunResult where
  sm : StateManager
  result : Except String (Option GraphState)
  trace : List Node
deriving Repr

/-- The driver loop of `generate_response` over `self.app.stream(inputs)`:
each consumed item is one node update; the loop stores the update and breaks
as soon as the yielded key is `"generate"` (the generate update dict is never
empty, hence truthy), and otherwise breaks once the step counter exceeds 10,
i.e. after consuming the 11th item. The stream is lazy, so nodes beyond the
last consumed item never execute; the branch out of a node runs with the node
itself, before the driver examines the yield. `fuel` only bounds the
recursion; 11 is always enough when starting from `step_count = 0`. -/
def runWorkflow (o : Oracle) : Nat → StateManager → Node → GraphState → Nat → RunResult
  | 0, sm, _, _, _ => ⟨sm, .ok none, []⟩
  | fuel + 1, sm, node, st, step_count =>
    if node = .done then ⟨sm, .ok none, []⟩
    else
      match runNode o sm node st with
      | (sm, .error e) => ⟨sm, .error e, []⟩
      | (sm, .ok upd) =>
        let st := mergeState st upd
        let (sm, next) := nextNode o sm node st
        if node = .generate then ⟨sm, .ok (some upd), [node]⟩
        else if 10 < step_count + 1 then ⟨sm, .ok none, [node]⟩
        else
          let r := runWorkflow o fuel sm next st (step_count + 1)
          ⟨r.sm, r.result, node :: r.trace⟩

/-- `generate_response` (lines 1241-1318) with an explicit retry-recursion
fuel. The Python recursion on a workflow exception is bounded by
`should_retry` (`retry_count < 3`), so a fuel of 4 covers every reachable
depth; the fuel-0 branch is unreachable from `generate_response` below. -/
def generate_response_aux (o : Oracle) :
    Nat → StateManager → String → String → StateManager × String
  | 0, sm, _, _ => (sm, max_retries_message)
  | fuel + 1, sm, question, session_id =>
    let sm := init_session sm session_id
    if (pyStrip question).length < 3 then (sm, clarification_message)
    else
      let health := get_session_health sm session_id
      if health.healthy = false then (sm, new_conversation_message)
      else
        let st0 : GraphState :=
          { question := some question, generation := none, documents := none,
            session_id := some session_id, error_message := none }
        let r := runWorkflow o 11 sm .retrieve st0 0
        match r.result with
        | .ok final_output =>
          match final_output with
          | some fo =>
            match fo.generation with
            | some response =>
              if (pyStrip response).length < 10 then (r.sm, short_answer_message)
              else (update_state r.sm session_id .completed, response)
            | none => (r.sm, trouble_processing_message)
          | none => (r.sm, trouble_processing_message)
        | .error _ =>
          if should_retry r.sm session_id .system_error then
            let sm := increment_retry r.sm session_id
            let (sm, resp) := generate_response_aux o fuel sm question session_id
            (sm, retry_prefix ++ resp)
          else (r.sm, max_retries_message)

/-- `generate_response(question, session_id)`. -/
def generate_response (o : Oracle) (sm : StateManager) (question session_id : String) :
    StateManager × String :=
  generate_response_aux o 4 sm question session_id

/-- An oracle whose every collaborator call raises (the fully-unreachable
backend). -/
def oDown : Oracle :=
  { classify_chain := fun _ => .error "down"
    enhance_query := fun _ => .error "down"
    similarity_search := fun _ _ => .error "down"
    relevance_score := fun _ _ => .error "down"
    sub_queries_chain := fun _ _ => .error "down"
    select_indices := fun _ _ _ => .error "down"
    viewpoints_chain := fun _ _ => .error "down"
    contextualize_chain := fun _ _ => .error "down"
    contextual_score := fun _ _ _ => .error "down"
    retrieval_grade := fun _ _ => .error "down"
    hallucination_grade := fun _ _ => .error "down"
    answer_grade := fun _ _ => .error "down"
    rewrite_chain := fun _ => .error "down"
    ddgs_text := fun _ _ => .error "down"
    rag_chain := fun _ _ => .error "down"
    llm_simple := fun _ => .error "down" }

/-- An oracle whose similarity search and web search succeed but always come
back empty (the document-empty cycle of the spec scenarios), with every LLM
chain raising. -/
def oEmpty : Oracle :=
  { oDown with
    similarity_search := fun _ _ => .ok []
    ddgs_text := fun _ _ => .ok [] }

/-- A corpus chunk used by the concrete runs. -/
def docA : Document :=
  { page_content := "Assessli is a company that provides assessment solutions."
    source := "https://www.assessli.com/" }

/-- A second corpus chunk. -/
def docB : Document :=
  { page_content := "Assessli can be contacted through the website contact page."
    source := "https://www.assessli.com/contactus" }

/-- A generation long enough to pass the length checks and free of the
apology / technical-difficulty markers. -/
def goodGeneration : String :=
  "Assessli is a company that provides assessment solutions to its customers."

/-- An oracle driving one clean pass of the workflow: classification comes
back unrecognized (basic similarity search), one relevant chunk is found and
graded relevant, the RAG chain answers, and both generation graders say yes. -/
def oGood : Oracle :=
  { oDown with
    classify_chain := fun _ => .ok "Unknown"
    similarity_search := fun _ _ => .ok [docA]
    retrieval_grade := fun _ _ => .ok "yes"
    rag_chain := fun _ _ => .ok goodGeneration
    hallucination_grade := fun _ _ => .ok "yes"
    answer_grade := fun _ _ => .ok "yes" }

/-- An oracle exercising the analytical branch with an index-selection answer
of five in-range indices for `k = 4`: three sub-queries, two chunks each. -/
def oFive : Oracle :=
  { oDown with
    classify_chain := fun _ => .ok "Analytical"
    sub_queries_chain := fun _ _ => .ok ["sub one", "sub two", "sub three"]
    similarity_search := fun _ _ => .ok [docA, docB]
    select_indices := fun _ _ _ => .ok [0, 1, 2, 3, 4] }


/-- Storing a session and reading it back yields the stored value. -/
theorem smLookup_smSet_self (sm : StateManager) (id : String) (s : SessionState) :
    smLookup (smSet sm id s) id = some s := by
  induction sm with
  | nil => simp [smSet, smLookup]
  | cons p rest ih =>
    obtain ⟨k, v⟩ := p
    by_cases h : k = id
    · simp [smSet, smLookup, h]
    · simp [smSet, smLookup, h, ih]

/-- The session view produced by `getOrInit` agrees with the counter views. -/
theorem getOrInit_views (sm : StateManager) (id : String) :
    (getOrInit sm id).2.consecutive_failures = cfOf sm id ∧
    (getOrInit sm id).2.retry_count = rcOf sm id ∧
    (getOrInit sm id).2.errors = errorsOf sm id := by
  unfold getOrInit cfOf rcOf errorsOf
  cases h : smLookup sm id <;> simp [freshSession]

/-- A list never holds more than five elements after `lastFive`. -/
theorem lastFive_length_le (l : List SystemError) : (lastFive l).length ≤ 5 := by
  simp [lastFive, List.length_drop]
  omega

/-- Dropping a head element commutes with `lastFive` on long lists. -/
theorem lastFive_cons (a : SystemError) (l : List SystemError) (h : 5 ≤ l.length) :
    lastFive (a :: l) = lastFive l := by
  unfold lastFive
  have hlen : (a :: l).length - 5 = (l.length - 5) + 1 := by
    simp only [List.length_cons]
    omega
  rw [hlen, List.drop_succ_cons]

/-- `lastFive` of a short list is the list itself. -/
theorem lastFive_of_short (l : List SystemError) (h : l.length ≤ 5) :
    lastFive l = l := by
  unfold lastFive
  have : l.length - 5 = 0 := by omega
  rw [this, List.drop_zero]

/-- Retaking the last five after appending sees only the retained suffix. -/
theorem lastFive_lastFive_append (l m : List SystemError) :
    lastFive (lastFive l ++ m) = lastFive (l ++ m) := by
  induction l with
  | nil => simp [lastFive]
  | cons a l ih =>
    by_cases h : 5 ≤ l.length
    · rw [lastFive_cons a l h, ih, List.cons_append,
        lastFive_cons a (l ++ m) (by simp; omega)]
    · rw [lastFive_of_short (a :: l) (by simp; omega)]

/-- One `log_error` call: the failure counter goes up by exactly one and the
error list becomes the last five of the old list with the error appended. -/
theorem log_error_step (sm : StateManager) (id : String) (e : SystemError) :
    cfOf (log_error sm id e) id = cfOf sm id + 1 ∧
    errorsOf (log_error sm id e) id = lastFive (errorsOf sm id ++ [e]) := by
  cases h : smLookup sm id with
  | none =>
    unfold log_error getOrInit
    rw [h]
    simp only [cfOf, errorsOf, smLookup_smSet_self, h, freshSession]
    refine ⟨by trivial, ?_⟩
    simp [lastFive]
  | some s =>
    unfold log_error getOrInit
    rw [h]
    simp only [cfOf, errorsOf, smLookup_smSet_self, h]
    refine ⟨by trivial, ?_⟩
    by_cases h5 : 5 < (s.errors ++ [e]).length
    · simp only [if_pos h5, lastFive]
    · simp only [if_neg h5]
      exact (lastFive_of_short _ (by omega)).symm

/-- A run of `log_error` calls starting from a session whose error list obeys
the at-most-five invariant. -/
theorem logErrors_from (id : String) (es : List SystemError) :
    ∀ (sm : StateManager), (errorsOf sm id).length ≤ 5 →
      cfOf (logErrors sm id es) id = cfOf sm id + es.length ∧
      errorsOf (logErrors sm id es) id = lastFive (errorsOf sm id ++ es) := by
  induction es with
  | nil =>
    intro sm hinv
    refine ⟨rfl, ?_⟩
    show errorsOf sm id = lastFive (errorsOf sm id ++ [])
    rw [List.append_nil]
    exact (lastFive_of_short _ hinv).symm
  | cons e es ih =>
    intro sm hinv
    have hstep := log_error_step sm id e
    have hrec := ih (log_error sm id e) (by rw [hstep.2]; exact lastFive_length_le _)
    constructor
    · show cfOf (logErrors (log_error sm id e) id es) id = cfOf sm id + (e :: es).length
      rw [hrec.1, hstep.1]
      simp only [List.length_cons]
      omega
    · show errorsOf (logErrors (log_error sm id e) id es) id
        = lastFive (errorsOf sm id ++ e :: es)
      rw [hrec.2, hstep.2, lastFive_lastFive_append, List.append_assoc]
      rfl

/-- C9: each `record_error` (`log_error`) call appends the error and
increments `consecutive_failures` by exactly one, the retained list being the
last five of the appended list; over any sequence of calls on a fresh session
the store keeps exactly the at-most-five most recent errors in order (so a
sixth arrival evicts the oldest). -/
theorem C9_record_error :
    (∀ (sm : StateManager) (id : String) (e : SystemError),
        cfOf (log_error sm id e) id = cfOf sm id + 1 ∧
        errorsOf (log_error sm id e) id = lastFive (errorsOf sm id ++ [e]))
  ∧ (∀ (sm : StateManager) (id : String) (es : List SystemError),
        smLookup sm id = none →
        cfOf (logErrors sm id es) id = es.length ∧
        errorsOf (logErrors sm id es) id = lastFive es ∧
        (errorsOf (logErrors sm id es) id).length ≤ 5) := by
  constructor
  · exact log_error_step
  · intro sm id es h
    have hv : errorsOf sm id = [] := by simp [errorsOf, h]
    have h0 : cfOf sm id = 0 := by simp [cfOf, h]
    have hmain := logErrors_from id es sm (by rw [hv]; simp)
    refine ⟨by rw [hmain.1, h0]; omega, ?_, ?_⟩
    · rw [hmain.2, hv]
      rfl
    · rw [hmain.2]
      exact lastFive_length_le _

/-- Six distinct errors, to exercise the eviction. -/
def sixErrors : List SystemError :=
  [mkSystemError .retrieval_error "one" "n", mkSystemError .generation_error "two" "n",
   mkSystemError .grading_error "three" "n", mkSystemError .search_error "four" "n",
   mkSystemError .network_error "five" "n", mkSystemError .system_error "six" "n"]

/-- Witness for C9: six errors on a fresh session leave the five most recent
(the first is evicted) and a failure counter of six. -/
theorem C9_witness :
    smLookup ([] : StateManager) "s" = none ∧
    errorsOf (logErrors [] "s" sixErrors) "s" = lastFive sixErrors ∧
    (errorsOf (logErrors [] "s" sixErrors) "s").length ≤ 5 ∧
    cfOf (logErrors [] "s" sixErrors) "s" = 6 := by
  have h := C9_record_error.2 [] "s" sixErrors rfl
  exact ⟨rfl, h.2.1, h.2.2, by rw [h.1]; rfl⟩

/-- C4: `should_retry` is false for a `ValidationError` or once the session
has at least three consecutive failures, and otherwise answers true exactly
when the retry counter is strictly below the global cap of three. -/
theorem C4_should_retry (sm : StateManager) (id : String) (et : ErrorType) :
    should_retry sm id et = true ↔
      (et ≠ ErrorType.validation_error ∧ cfOf sm id < 3 ∧ rcOf sm id < 3) := by
  unfold should_retry cfOf rcOf max_retry_attempts
  cases h : smLookup sm id <;>
    by_cases hv : et = ErrorType.validation_error <;>
      simp [hv]

/-- Witness for C4: a retryable kind on a fresh session may retry. -/
theorem C4_witness : should_retry [] "fresh" ErrorType.network_error = true :=
  (C4_should_retry [] "fresh" ErrorType.network_error).mpr
    ⟨by decide, by decide, by decide⟩

/-- C2 (code defect): on a workflow state with no question key, every node
raises out of its own except handler instead of returning a best-effort state:
`grade_documents`, `generate` and `transform_query` reference the unbound
local `question` in the handler (`UnboundLocalError`), and `retrieve` re-reads
`state["question"]` there (`KeyError`). -/
theorem C2_nodes_raise_without_question :
    (safe_retrieve oDown [] emptyGraphState).2.isOk = false ∧
    (safe_grade_documents oDown [] emptyGraphState).2.isOk = false ∧
    (safe_generate oDown [] emptyGraphState).2.isOk = false ∧
    (safe_transform_query oDown [] emptyGraphState).2.isOk = false :=
  ⟨rfl, rfl, rfl, rfl⟩

/-- The unhealthy-session gate of `generate_response`, for any retry fuel:
with an existing session at five or more consecutive failures and a valid
question, the canned new-conversation message is returned at once and the
store is left untouched. -/
theorem gen_aux_unhealthy (o : Oracle) (fuel : Nat) (sm : StateManager) (id q : String)
    (s : SessionState) (hs : smLookup sm id = some s) (hcf : 5 ≤ s.consecutive_failures)
    (hq : 3 ≤ (pyStrip q).length) :
    generate_response_aux o (fuel + 1) sm q id = (sm, new_conversation_message) := by
  have hinit : init_session sm id = sm := by
    unfold init_session getOrInit
    rw [hs]
  have hq3 : ¬ (pyStrip q).length < 3 := by omega
  have hhealth : (get_session_health sm id).healthy = false := by
    unfold get_session_health
    rw [hs]
    simp
    omega
  unfold generate_response_aux
  rw [hinit, if_neg hq3]
  simp [hhealth]

/-- C3: a session is healthy exactly when it has fewer than five consecutive
failures; and once the counter has reached five, `generate_response` with a
valid question returns the canned new-conversation message immediately - the
store is unchanged and the answer is the same for every oracle, so no
retrieval, grading or generation step runs. -/
theorem C3_health_gate :
    (∀ (sm : StateManager) (id : String),
        (get_session_health sm id).healthy = true ↔ cfOf sm id < 5)
  ∧ (∀ (o : Oracle) (sm : StateManager) (id : String) (s : SessionState) (q : String),
        smLookup sm id = some s → 5 ≤ s.consecutive_failures →
        3 ≤ (pyStrip q).length →
        generate_response o sm q id = (sm, new_conversation_message)) := by
  constructor
  · intro sm id
    unfold get_session_health cfOf
    cases h : smLookup sm id <;> simp
  · intro o sm id s q hs hcf hq
    exact gen_aux_unhealthy o 3 sm id q s hs hcf hq

/-- A session that has accumulated five consecutive failures. -/
def sess5 : SessionState := { freshSession with consecutive_failures := 5 }

/-- A store holding only that session. -/
def sm5 : StateManager := [("s", sess5)]

/-- Witness for C3: the gate fires on a concrete five-failure session. -/
theorem C3_witness :
    smLookup sm5 "s" = some sess5 ∧ 5 ≤ sess5.consecutive_failures ∧
    3 ≤ (pyStrip "hello").length ∧
    generate_response oEmpty sm5 "hello" "s" = (sm5, new_conversation_message) := by
  refine ⟨rfl, by decide, by decide, ?_⟩
  exact C3_health_gate.2 oEmpty sm5 "s" sess5 "hello" rfl (by decide) (by decide)

/-- `reset_failures` leaves both counters at zero. -/
theorem reset_failures_zero (sm : StateManager) (id : String) :
    cfOf (reset_failures sm id) id = 0 ∧ rcOf (reset_failures sm id) id = 0 := by
  unfold reset_failures getOrInit
  cases h : smLookup sm id <;> simp [cfOf, rcOf, smLookup_smSet_self]

/-- C5 (amended): when the generation-grading edge completes its body (the
state carries question, documents and generation) and returns `"useful"`,
both session counters are reset to zero - for every oracle behaviour on that
path. (When the body raises, the handler returns `"useful"` without touching
the counters; see the counterexample.) -/
theorem C5_useful_resets (o : Oracle) (sm : StateManager) (st : GraphState)
    (q g : String) (ds : List Document)
    (hq : st.question = some q) (hd : st.documents = some ds)
    (hg : st.generation = some g)
    (hu : (grade_generation_v_documents_and_question o sm st).2 = "useful") :
    cfOf (grade_generation_v_documents_and_question o sm st).1
      (st.session_id.getD "default") = 0 ∧
    rcOf (grade_generation_v_documents_and_question o sm st).1
      (st.session_id.getD "default") = 0 := by
  obtain ⟨oq, og, od, osid, oem⟩ := st
  simp only at hq hd hg
  subst hq
  subst hd
  subst hg
  unfold grade_generation_v_documents_and_question at hu ⊢
  simp only at hu ⊢
  split_ifs at hu ⊢ <;>
    first
      | exact reset_failures_zero sm _
      | simp at hu

/-- A session mid-failure-streak, for the C5 scenario. -/
def sessC5 : SessionState := { freshSession with consecutive_failures := 2, retry_count := 1 }

/-- A store holding only that session. -/
def smC5 : StateManager := [("s", sessC5)]

/-- A workflow state that reached the edge without a generation key. -/
def stNoGeneration : GraphState :=
  { question := some "What is Assessli?", generation := none, documents := some [],
    session_id := some "s", error_message := none }

/-- C5 (counterexample): with the generation key missing, the edge body raises
and the handler answers `"useful"` while the session counters stay at 2 and 1
- the claimed unconditional reset does not happen. -/
theorem C5_counterexample :
    grade_generation_v_documents_and_question oDown smC5 stNoGeneration
      = (smC5, "useful") ∧
    cfOf smC5 "s" = 2 ∧ rcOf smC5 "s" = 1 :=
  ⟨rfl, rfl, rfl⟩

/-- The workflow state of a completed good generation. -/
def stFull : GraphState :=
  { question := some "What is Assessli?", generation := some goodGeneration,
    documents := some [docA], session_id := some "s", error_message := none }

/-- Witness for C5: a concrete useful verdict zeroes both counters. -/
theorem C5_witness :
    (grade_generation_v_documents_and_question oGood smC5 stFull).2 = "useful" ∧
    cfOf (grade_generation_v_documents_and_question oGood smC5 stFull).1
      (stFull.session_id.getD "default") = 0 ∧
    rcOf (grade_generation_v_documents_and_question oGood smC5 stFull).1
      (stFull.session_id.getD "default") = 0 := by
  have h := C5_useful_resets oGood smC5 stFull "What is Assessli?" goodGeneration [docA]
    rfl rfl rfl rfl
  exact ⟨rfl, h.1, h.2⟩

/-- Driver loop bound: starting from a step counter of at most 10, the loop
consumes at most `11 - c` further node updates. -/
theorem runWorkflow_trace_le (o : Oracle) :
    ∀ (fuel : Nat) (sm : StateManager) (node : Node) (st : GraphState) (c : Nat),
      c ≤ 10 → (runWorkflow o fuel sm node st c).trace.length + c ≤ 11 := by
  intro fuel
  induction fuel with
  | zero =>
    intro sm node st c hc
    simp only [runWorkflow, List.length_nil]
    omega
  | succ fuel ih =>
    intro sm node st c hc
    unfold runWorkflow
    by_cases hdone : node = Node.done
    · rw [if_pos hdone]
      simp only [List.length_nil]
      omega
    · rw [if_neg hdone]
      cases hrn : runNode o sm node st with
      | mk sm1 res =>
        cases res with
        | error e =>
          simp only [List.length_nil]
          omega
        | ok upd =>
          dsimp only
          cases hnn : nextNode o sm1 node (mergeState st upd) with
          | mk sm2 next =>
            dsimp only
            by_cases hg : node = Node.generate
            · rw [if_pos hg]
              simp only [List.length_cons, List.length_nil]
              omega
            · rw [if_neg hg]
              by_cases hc1 : 10 < c + 1
              · rw [if_pos hc1]
                simp only [List.length_cons, List.length_nil]
                omega
              · rw [if_neg hc1]
                have hrec := ih sm2 next (mergeState st upd) (c + 1) (by omega)
                simp only [List.length_cons]
                omega

/-- C1 (amended): for every oracle behaviour, every store and every starting
state, the driver loop of `generate_response` consumes at most 11 graph steps
- the guard breaks once the step counter exceeds 10, i.e. after the 11th
step - so even a forever-cycling workflow graph terminates by step 11. -/
theorem C1_step_cap (o : Oracle) (fuel : Nat) (sm : StateManager) (st : GraphState) :
    (runWorkflow o fuel sm Node.retrieve st 0).trace.length ≤ 11 := by
  have h := runWorkflow_trace_le o fuel sm Node.retrieve st 0 (by omega)
  omega

/-- The initial workflow state of a concrete question. -/
def stQ : GraphState :=
  { question := some "What is Assessli?", generation := none, documents := none,
    session_id := some "s", error_message := none }

/-- C1 (counterexample): against the oracle that always yields empty document
sets, the workflow cycles retrieve / grade / transform forever and the driver
consumes exactly 11 steps before breaking - more than the 10 steps the claim
allows. -/
theorem C1_counterexample :
    (runWorkflow oEmpty 11 [] Node.retrieve stQ 0).trace.length = 11 ∧ 10 < 11 :=
  ⟨rfl, by omega⟩

/-- C10: in every driver run, at most one generate step is ever consumed;
whenever the run produces a final output, the consumed trace ends at that
generate step (the loop breaks there, so the stream is never pulled again);
and whenever a generate step was consumed, the run has a final output. Hence
the post-generation edges (`"not supported" → generate`,
`"not useful" → transform_query`) never alter the text handed back: a second
generation or a post-generation query transform is unreachable from
`generate_response`. -/
theorem C10_first_generation_wins (o : Oracle) :
    ∀ (fuel : Nat) (sm : StateManager) (node : Node) (st : GraphState) (c : Nat),
      ((runWorkflow o fuel sm node st c).trace.count Node.generate ≤ 1)
      ∧ (∀ fo, (runWorkflow o fuel sm node st c).result = .ok (some fo) →
          (runWorkflow o fuel sm node st c).trace.getLast? = some Node.generate)
      ∧ (Node.generate ∈ (runWorkflow o fuel sm node st c).trace →
          ∃ fo, (runWorkflow o fuel sm node st c).result = .ok (some fo)) := by
  intro fuel
  induction fuel with
  | zero =>
    intro sm node st c
    refine ⟨by simp [runWorkflow], ?_, ?_⟩
    · intro fo h
      simp [runWorkflow] at h
    · intro h
      simp [runWorkflow] at h
  | succ fuel ih =>
    intro sm node st c
    unfold runWorkflow
    by_cases hdone : node = Node.done
    · rw [if_pos hdone]
      refine ⟨by simp, ?_, ?_⟩
      · intro fo h
        simp at h
      · intro h
        simp at h
    · rw [if_neg hdone]
      cases hrn : runNode o sm node st with
      | mk sm1 res =>
        cases res with
        | error e =>
          refine ⟨by simp, ?_, ?_⟩
          · intro fo h
            simp at h
          · intro h
            simp at h
        | ok upd =>
          dsimp only
          cases hnn : nextNode o sm1 node (mergeState st upd) with
          | mk sm2 next =>
            dsimp only
            by_cases hg : node = Node.generate
            · rw [if_pos hg]
              subst hg
              refine ⟨by dsimp only; decide, ?_, ?_⟩
              · intro fo h
                simp
              · intro h
                exact ⟨upd, rfl⟩
            · rw [if_neg hg]
              by_cases hc1 : 10 < c + 1
              · rw [if_pos hc1]
                refine ⟨?_, ?_, ?_⟩
                · simp only [RunResult.trace, List.count_cons, List.count_nil]
                  split <;> omega
                · intro fo h
                  dsimp only at h
                  simp at h
                · intro h
                  dsimp only at h
                  rw [List.mem_singleton] at h
                  exact absurd h.symm hg
              · rw [if_neg hc1]
                obtain ⟨ihc, ihlast, ihmem⟩ := ih sm2 next (mergeState st upd) (c + 1)
                refine ⟨?_, ?_, ?_⟩
                · simp only [RunResult.trace, List.count_cons]
                  have hb : (node == Node.generate) = false := beq_eq_false_iff_ne.mpr hg
                  rw [hb]
                  simpa using ihc
                · intro fo h
                  simp only [RunResult.result] at h
                  have hlast := ihlast fo h
                  have hne : (runWorkflow o fuel sm2 next (mergeState st upd) (c + 1)).trace ≠ [] := by
                    intro hnil
                    rw [hnil] at hlast
                    simp at hlast
                  simp only [RunResult.trace]
                  exact Option.mem_def.mp
                    (List.mem_getLast?_cons (Option.mem_def.mpr hlast))
                · intro h
                  simp only [RunResult.trace, List.mem_cons] at h
                  cases h with
                  | inl heq => exact absurd heq.symm hg
                  | inr hmem => exact ihmem hmem

/-- Witness for C10: a concrete clean run produces a final output, and its
consumed trace indeed ends at the generate step. -/
theorem C10_witness :
    (runWorkflow oGood 11 [] Node.retrieve stQ 0).trace.getLast? = some Node.generate :=
  (C10_first_generation_wins oGood 11 [] Node.retrieve stQ 0).2.1 _ rfl

/-- C8: `adaptive_retrieve` never raises to its caller: the result is always
`.ok`; when the dispatched category branch raises, the result is exactly the
plain similarity search for `k` results, and when that fallback also raises,
the empty sequence. -/
theorem C8_adaptive_never_raises (o : Oracle) (q : String) (k : Nat)
    (ctx : Option String) :
    (adaptive_retrieve o q k ctx).isOk = true
    ∧ (∀ e ds, dispatch_branch o q k ctx = .error e →
        o.similarity_search q k = .ok ds → adaptive_retrieve o q k ctx = .ok ds)
    ∧ (∀ e e2, dispatch_branch o q k ctx = .error e →
        o.similarity_search q k = .error e2 → adaptive_retrieve o q k ctx = .ok []) := by
  refine ⟨?_, ?_, ?_⟩
  · unfold adaptive_retrieve
    cases hd : dispatch_branch o q k ctx with
    | ok ds => rfl
    | error e =>
      cases hs : o.similarity_search q k with
      | ok ds => rfl
      | error e2 => rfl
  · intro e ds hd hs
    unfold adaptive_retrieve
    rw [hd, hs]
  · intro e e2 hd hs
    unfold adaptive_retrieve
    rw [hd, hs]

/-- Witness for C8: with every collaborator down both the dispatched branch
and the fallback raise, and `adaptive_retrieve` still answers `.ok []`. -/
theorem C8_witness :
    dispatch_branch oDown "What is Assessli?" 4 none = .error "down" ∧
    oDown.similarity_search "What is Assessli?" 4 = .error "down" ∧
    adaptive_retrieve oDown "What is Assessli?" 4 none = .ok [] := by
  refine ⟨rfl, rfl, ?_⟩
  exact (C8_adaptive_never_raises oDown "What is Assessli?" 4 none).2.2 "down" "down" rfl rfl

/-- Inserting into the descending sort grows the length by one. -/
theorem insertDesc_length (p : Document × Int) (l : List (Document × Int)) :
    (insertDesc p l).length = l.length + 1 := by
  induction l with
  | nil => rfl
  | cons qq rest ih =>
    unfold insertDesc
    by_cases h : qq.2 < p.2
    · simp [h]
    · simp [h, ih]

/-- The descending sort preserves length. -/
theorem sortDesc_length (l : List (Document × Int)) : (sortDesc l).length = l.length := by
  induction l with
  | nil => rfl
  | cons p rest ih => simp [sortDesc, insertDesc_length, ih]

/-- The comprehension keeps at most one document per selected index. -/
theorem pySelect_length_le (xs : List Document) :
    ∀ (idxs : List Int) (ds : List Document),
      pySelect xs idxs = .ok ds → ds.length ≤ idxs.length := by
  intro idxs
  induction idxs with
  | nil =>
    intro ds h
    simp only [pySelect] at h
    injection h with h2
    subst h2
    simp
  | cons i rest ih =>
    intro ds h
    unfold pySelect at h
    by_cases hi : i < (xs.length : Int)
    · rw [if_pos hi] at h
      cases h1 : pyIndex xs i with
      | error e =>
        rw [h1] at h
        simp at h
      | ok d =>
        rw [h1] at h
        cases h2 : pySelect xs rest with
        | error e =>
          rw [h2] at h
          simp at h
        | ok ds2 =>
          rw [h2] at h
          injection h with h3
          subst h3
          have := ih ds2 h2
          simp only [List.length_cons]
          omega
    · rw [if_neg hi] at h
      have := ih ds h
      simp only [List.length_cons]
      omega

/-- Factual retrieval obeys the `k` bound when similarity search does. -/
theorem retrieve_factual_le (o : Oracle) (q : String) (k : Nat)
    (hsim : ∀ qq n dd, o.similarity_search qq n = .ok dd → dd.length ≤ n)
    (ds : List Document) (h : retrieve_factual o q k = .ok ds) : ds.length ≤ k := by
  unfold retrieve_factual at h
  cases h1 : o.enhance_query q with
  | error e =>
    rw [h1] at h
    dsimp only at h
    exact hsim q k ds h
  | ok eq2 =>
    rw [h1] at h
    dsimp only at h
    cases h2 : o.similarity_search eq2 (k * 2) with
    | error e =>
      rw [h2] at h
      dsimp only at h
      exact hsim q k ds h
    | ok docs =>
      rw [h2] at h
      dsimp only at h
      injection h with h3
      subst h3
      simp only [List.length_map, List.length_take]
      omega

/-- Analytical retrieval obeys the `k` bound when both collaborators do. -/
theorem retrieve_analytical_le (o : Oracle) (q : String) (k : Nat)
    (hsim : ∀ qq n dd, o.similarity_search qq n = .ok dd → dd.length ≤ n)
    (hsel : ∀ qq t n l, o.select_indices qq t n = .ok l → l.length ≤ n)
    (ds : List Document) (h : retrieve_analytical o q k = .ok ds) : ds.length ≤ k := by
  unfold retrieve_analytical at h
  cases h1 : o.sub_queries_chain q k with
  | error e =>
    rw [h1] at h
    dsimp only at h
    exact hsim q k ds h
  | ok sqs =>
    rw [h1] at h
    dsimp only at h
    cases h2 : gatherDocs o sqs 2 with
    | error e =>
      rw [h2] at h
      dsimp only at h
      exact hsim q k ds h
    | ok all_docs =>
      rw [h2] at h
      dsimp only at h
      cases h3 : o.select_indices q (docsText 50 all_docs) k with
      | error e =>
        rw [h3] at h
        dsimp only at h
        exact hsim q k ds h
      | ok idxs =>
        rw [h3] at h
        dsimp only at h
        cases h4 : pySelect all_docs idxs with
        | error e =>
          rw [h4] at h
          dsimp only at h
          exact hsim q k ds h
        | ok sel =>
          rw [h4] at h
          dsimp only at h
          injection h with h5
          subst h5
          exact le_trans (pySelect_length_le all_docs idxs sel h4)
            (hsel q (docsText 50 all_docs) k idxs h3)

/-- Opinion retrieval obeys the `k` bound when both collaborators do. -/
theorem retrieve_opinion_le (o : Oracle) (q : String) (k : Nat)
    (hsim : ∀ qq n dd, o.similarity_search qq n = .ok dd → dd.length ≤ n)
    (hsel : ∀ qq t n l, o.select_indices qq t n = .ok l → l.length ≤ n)
    (ds : List Document) (h : retrieve_opinion o q k = .ok ds) : ds.length ≤ k := by
  unfold retrieve_opinion at h
  cases h1 : o.viewpoints_chain q k with
  | error e =>
    rw [h1] at h
    dsimp only at h
    exact hsim q k ds h
  | ok vtext =>
    rw [h1] at h
    dsimp only at h
    cases h2 : gatherDocs o ((pySplitLines vtext).map (fun vp => q ++ " " ++ vp)) 2 with
    | error e =>
      rw [h2] at h
      dsimp only at h
      exact hsim q k ds h
    | ok all_docs =>
      rw [h2] at h
      dsimp only at h
      cases h3 : o.select_indices q (docsText 100 all_docs) k with
      | error e =>
        rw [h3] at h
        dsimp only at h
        exact hsim q k ds h
      | ok idxs =>
        rw [h3] at h
        dsimp only at h
        cases h4 : pySelect all_docs idxs with
        | error e =>
          rw [h4] at h
          dsimp only at h
          exact hsim q k ds h
        | ok sel =>
          rw [h4] at h
          dsimp only at h
          injection h with h5
          subst h5
          exact le_trans (pySelect_length_le all_docs idxs sel h4)
            (hsel q (docsText 100 all_docs) k idxs h3)

/-- Contextual retrieval obeys the `k` bound when similarity search does. -/
theorem retrieve_contextual_le (o : Oracle) (q : String) (k : Nat) (ctx : Option String)
    (hsim : ∀ qq n dd, o.similarity_search qq n = .ok dd → dd.length ≤ n)
    (ds : List Document) (h : retrieve_contextual o q k ctx = .ok ds) : ds.length ≤ k := by
  unfold retrieve_contextual at h
  dsimp only at h
  generalize hcs : (match ctx with
    | some c => if c = "" then "No specific context provided" else c
    | none => "No specific context provided") = cs at h
  cases h1 : o.contextualize_chain q cs with
  | error e =>
    rw [h1] at h
    dsimp only at h
    exact hsim q k ds h
  | ok cq =>
    rw [h1] at h
    dsimp only at h
    cases h2 : o.similarity_search cq (k * 2) with
    | error e =>
      rw [h2] at h
      dsimp only at h
      exact hsim q k ds h
    | ok docs =>
      rw [h2] at h
      dsimp only at h
      cases h3 : mapScores o cq cs docs with
      | error e =>
        rw [h3] at h
        dsimp only at h
        exact hsim q k ds h
      | ok ranked =>
        rw [h3] at h
        dsimp only at h
        injection h with h4
        subst h4
        simp only [List.length_map, List.length_take]
        omega

/-- C7 (amended): `adaptive_retrieve` returns at most `k` chunks provided the
similarity-search collaborator honours its `k` argument and the
index-selection oracle answers at most `k` indices. (Without the latter
assumption the bound fails: the selection loop drops out-of-range indices but
never caps their count - see the counterexample.) -/
theorem C7_bounded (o : Oracle)
    (hsim : ∀ qq n dd, o.similarity_search qq n = .ok dd → dd.length ≤ n)
    (hsel : ∀ qq t n l, o.select_indices qq t n = .ok l → l.length ≤ n)
    (q : String) (k : Nat) (ctx : Option String) (ds : List Document)
    (h : adaptive_retrieve o q k ctx = .ok ds) : ds.length ≤ k := by
  have hdisp : ∀ ds2, dispatch_branch o q k ctx = .ok ds2 → ds2.length ≤ k := by
    intro ds2 h2
    unfold dispatch_branch at h2
    dsimp only at h2
    split_ifs at h2
    · exact retrieve_factual_le o q k hsim ds2 h2
    · exact retrieve_analytical_le o q k hsim hsel ds2 h2
    · exact retrieve_opinion_le o q k hsim hsel ds2 h2
    · exact retrieve_contextual_le o q k ctx hsim ds2 h2
    · exact hsim q k ds2 h2
  unfold adaptive_retrieve at h
  cases hd : dispatch_branch o q k ctx with
  | ok ds2 =>
    rw [hd] at h
    dsimp only at h
    injection h with h3
    subst h3
    exact hdisp ds2 hd
  | error e =>
    rw [hd] at h
    dsimp only at h
    cases hs : o.similarity_search q k with
    | ok ds2 =>
      rw [hs] at h
      dsimp only at h
      injection h with h3
      subst h3
      exact hsim q k ds2 hs
    | error e2 =>
      rw [hs] at h
      dsimp only at h
      injection h with h3
      subst h3
      simp

/-- The length of a retrieval result (0 for an exception). -/
def exceptLen : Except String (List Document) → Nat
  | .ok ds => ds.length
  | .error _ => 0

/-- C7 (counterexample): with `k = 4`, an index-selection oracle answering
five in-range indices makes `adaptive_retrieve` return five chunks - the
claimed length-at-most-k bound fails for such oracle behaviour. -/
theorem C7_counterexample :
    exceptLen (adaptive_retrieve oFive "Compare the offerings" 4 none) = 5 ∧ 4 < 5 :=
  ⟨rfl, by omega⟩

/-- Witness for C7: a well-behaved oracle stays within the bound. -/
theorem C7_witness :
    adaptive_retrieve oEmpty "What is Assessli?" 3 none = .ok [] ∧
    ([] : List Document).length ≤ 3 := by
  refine ⟨rfl, ?_⟩
  exact C7_bounded oEmpty
    (fun qq n dd h => by
      have h2 : Except.ok ([] : List Document) = Except.ok dd := h
      injection h2 with h3
      subst h3
      simp)
    (fun qq t n l h => by
      have h2 : (Except.error "down" : Except String (List Int)) = Except.ok l := h
      simp at h2)
    "What is Assessli?" 3 none [] rfl

/-- Selecting from an empty pool yields nothing or raises (negative index). -/
theorem pySelect_nil (idxs : List Int) :
    pySelect [] idxs = .ok [] ∨ ∃ e, pySelect [] idxs = .error e := by
  induction idxs with
  | nil => exact Or.inl rfl
  | cons i rest ih =>
    unfold pySelect
    by_cases hi : i < (([] : List Document).length : Int)
    · rw [if_pos hi]
      have hneg : ¬ (0 ≤ i) := by
        simp only [List.length_nil, Nat.cast_zero] at hi
        omega
      have hidx : pyIndex [] i = .error "IndexError" := by
        unfold pyIndex
        rw [if_neg hneg]
        simp
      rw [hidx]
      exact Or.inr ⟨_, rfl⟩
    · rw [if_neg hi]
      exact ih

/-- With an always-empty similarity search, pooling returns nothing. -/
theorem gatherDocs_empty (o : Oracle)
    (hss : ∀ q k, o.similarity_search q k = .ok []) :
    ∀ (qs : List String) (k : Nat), gatherDocs o qs k = .ok [] := by
  intro qs k
  induction qs with
  | nil => rfl
  | cons q rest ih =>
    unfold gatherDocs
    rw [hss q k]
    dsimp only
    rw [ih]
    rfl

/-- With an always-empty similarity search, factual retrieval is empty. -/
theorem retrieve_factual_empty (o : Oracle)
    (hss : ∀ q k, o.similarity_search q k = .ok []) (q : String) (k : Nat) :
    retrieve_factual o q k = .ok [] := by
  unfold retrieve_factual
  cases h1 : o.enhance_query q with
  | error e =>
    dsimp only
    exact hss q k
  | ok eq2 =>
    dsimp only
    rw [hss eq2 (k * 2)]
    simp [sortDesc]

/-- With an always-empty similarity search, analytical retrieval is empty. -/
theorem retrieve_analytical_empty (o : Oracle)
    (hss : ∀ q k, o.similarity_search q k = .ok []) (q : String) (k : Nat) :
    retrieve_analytical o q k = .ok [] := by
  unfold retrieve_analytical
  cases h1 : o.sub_queries_chain q k with
  | error e =>
    dsimp only
    exact hss q k
  | ok sqs =>
    dsimp only
    rw [gatherDocs_empty o hss sqs 2]
    dsimp only
    cases h3 : o.select_indices q (docsText 50 []) k with
    | error e =>
      dsimp only
      exact hss q k
    | ok idxs =>
      dsimp only
      rcases pySelect_nil idxs with hsel | ⟨e, hsel⟩
      · rw [hsel]
      · rw [hsel]
        dsimp only
        exact hss q k

/-- With an always-empty similarity search, opinion retrieval is empty. -/
theorem retrieve_opinion_empty (o : Oracle)
    (hss : ∀ q k, o.similarity_search q k = .ok []) (q : String) (k : Nat) :
    retrieve_opinion o q k = .ok [] := by
  unfold retrieve_opinion
  cases h1 : o.viewpoints_chain q k with
  | error e =>
    dsimp only
    exact hss q k
  | ok vtext =>
    dsimp only
    rw [gatherDocs_empty o hss ((pySplitLines vtext).map (fun vp => q ++ " " ++ vp)) 2]
    dsimp only
    cases h3 : o.select_indices q (docsText 100 []) k with
    | error e =>
      dsimp only
      exact hss q k
    | ok idxs =>
      dsimp only
      rcases pySelect_nil idxs with hsel | ⟨e, hsel⟩
      · rw [hsel]
      · rw [hsel]
        dsimp only
        exact hss q k

/-- With an always-empty similarity search, contextual retrieval is empty. -/
theorem retrieve_contextual_empty (o : Oracle)
    (hss : ∀ q k, o.similarity_search q k = .ok []) (q : String) (k : Nat)
    (ctx : Option String) : retrieve_contextual o q k ctx = .ok [] := by
  unfold retrieve_contextual
  dsimp only
  generalize hcs : (match ctx with
    | some c => if c = "" then "No specific context provided" else c
    | none => "No specific context provided") = cs
  cases h1 : o.contextualize_chain q cs with
  | error e =>
    dsimp only
    exact hss q k
  | ok cq =>
    dsimp only
    rw [hss cq (k * 2)]
    dsimp only
    have hms : mapScores o cq cs [] = Except.ok [] := rfl
    rw [hms]
    simp [sortDesc]

/-- With an always-empty similarity search, adaptive retrieval is empty for
every query, bound and context. -/
theorem adaptive_retrieve_empty (o : Oracle)
    (hss : ∀ q k, o.similarity_search q k = .ok []) (q : String) (k : Nat)
    (ctx : Option String) : adaptive_retrieve o q k ctx = .ok [] := by
  have hdisp : dispatch_branch o q k ctx = .ok [] := by
    unfold dispatch_branch
    dsimp only
    split_ifs
    · exact retrieve_factual_empty o hss q k
    · exact retrieve_analytical_empty o hss q k
    · exact retrieve_opinion_empty o hss q k
    · exact retrieve_contextual_empty o hss q k ctx
    · exact hss q k
  unfold adaptive_retrieve
  rw [hdisp]

/-- With an always-empty raw web search, the search fallback finds nothing. -/
theorem duckduckgo_empty (o : Oracle)
    (hdd : ∀ q n, o.ddgs_text q n = .ok []) (q : String) (n : Nat) :
    duckduckgo_search o q n = [] := by
  unfold duckduckgo_search
  rw [hdd q n]
  rfl

/-- Merging keeps a key set by the update. -/
theorem mergeState_question_some (st u : GraphState) (q : String)
    (h : u.question = some q) : (mergeState st u).question = some q := by
  unfold mergeState
  rw [h]
  rfl

/-- Merging keeps a documents key set by the update. -/
theorem mergeState_documents_some (st u : GraphState) (ds : List Document)
    (h : u.documents = some ds) : (mergeState st u).documents = some ds := by
  unfold mergeState
  rw [h]
  rfl

/-- An empty (or absent) document list routes grading to the transform node. -/
theorem decide_transform (st : GraphState) (h : st.documents = some []) :
    decide_to_generate st = "transform_query" := by
  unfold decide_to_generate
  rw [h]
  rfl

/-- Under an always-empty similarity search, the retrieve node emits the
empty-documents update with its explanatory message. -/
theorem safe_retrieve_empty (o : Oracle)
    (hss : ∀ q k, o.similarity_search q k = .ok []) (sm : StateManager)
    (st : GraphState) (q : String) (hq : st.question = some q) :
    safe_retrieve o sm st =
      (update_state sm (st.session_id.getD "default") .retrieving,
       .ok { question := some q, generation := none, documents := some [],
             session_id := some (st.session_id.getD "default"),
             error_message := some no_docs_found_message }) := by
  unfold safe_retrieve
  rw [hq]
  dsimp only
  rw [adaptive_retrieve_empty o hss q 4 none]
  rfl

/-- Under empty search and empty web fallback, the grading node emits an
empty-documents update (through the web-search branch when the key is
present, through its handler when it is absent). -/
theorem safe_grade_documents_empty (o : Oracle)
    (hdd : ∀ q n, o.ddgs_text q n = .ok []) (sm : StateManager)
    (st : GraphState) (q : String) (hq : st.question = some q)
    (hd : st.documents = none ∨ st.documents = some []) :
    ∃ (sm2 : StateManager) (em : Option String),
      safe_grade_documents o sm st =
        (sm2, .ok { question := some q, generation := none, documents := some [],
                    session_id := some (st.session_id.getD "default"),
                    error_message := em }) := by
  unfold safe_grade_documents
  rw [hq]
  cases hd with
  | inl hnone =>
    rw [hnone]
    exact ⟨_, _, rfl⟩
  | inr hnil =>
    rw [hnil]
    dsimp only
    rw [duckduckgo_empty o hdd q 3]
    exact ⟨_, _, rfl⟩

/-- The transform node always emits an update carrying some question and the
(possibly defaulted) previous documents. -/
theorem safe_transform_query_shape (o : Oracle) (sm : StateManager)
    (st : GraphState) (q : String) (hq : st.question = some q) :
    ∃ (sm2 : StateManager) (q2 : String),
      safe_transform_query o sm st =
        (sm2, .ok { question := some q2, generation := none,
                    documents := some (st.documents.getD []),
                    session_id := some (st.session_id.getD "default"),
                    error_message := none }) := by
  unfold safe_transform_query
  rw [hq]
  dsimp only
  cases hr : o.rewrite_chain q with
  | error e => exact ⟨_, q, rfl⟩
  | ok better =>
    dsimp only
    by_cases hlen : (pyStrip better).length < 5
    · rw [if_pos hlen]
      exact ⟨_, q, rfl⟩
    · rw [if_neg hlen]
      exact ⟨_, better, rfl⟩

/-- Under empty retrieval and empty web search, the workflow cycles through
retrieve, grade and transform without ever reaching the generate node: the
driver consumes updates until its step cap and ends with no final output. -/
theorem cycle_no_output (o : Oracle)
    (hss : ∀ q k, o.similarity_search q k = .ok [])
    (hdd : ∀ q n, o.ddgs_text q n = .ok []) :
    ∀ (fuel : Nat) (sm : StateManager) (node : Node) (st : GraphState) (c : Nat),
      (node = Node.retrieve ∨ node = Node.grade_documents ∨ node = Node.transform_query) →
      (∃ q, st.question = some q) →
      (st.documents = none ∨ st.documents = some []) →
      (runWorkflow o fuel sm node st c).result = .ok none := by
  intro fuel
  induction fuel with
  | zero =>
    intro sm node st c hn hq hd
    rfl
  | succ fuel ih =>
    intro sm node st c hn hq hd
    obtain ⟨q, hq⟩ := hq
    unfold runWorkflow
    have hdone : ¬ node = Node.done := by
      rcases hn with h | h | h <;> subst h <;> simp
    rw [if_neg hdone]
    rcases hn with h | h | h <;> subst h
    · -- retrieve
      rw [show runNode o sm Node.retrieve st = safe_retrieve o sm st from rfl,
        safe_retrieve_empty o hss sm st q hq]
      dsimp only [nextNode]
      rw [if_neg (by simp : ¬ Node.retrieve = Node.generate)]
      by_cases hc1 : 10 < c + 1
      · rw [if_pos hc1]
      · rw [if_neg hc1]
        dsimp only
        apply ih
        · exact Or.inr (Or.inl rfl)
        · exact ⟨q, mergeState_question_some _ _ q rfl⟩
        · exact Or.inr (mergeState_documents_some _ _ [] rfl)
    · -- grade_documents
      obtain ⟨sm2, em, hgr⟩ := safe_grade_documents_empty o hdd sm st q hq hd
      rw [show runNode o sm Node.grade_documents st = safe_grade_documents o sm st from rfl,
        hgr]
      dsimp only [nextNode]
      rw [if_pos (decide_transform _ (mergeState_documents_some _ _ [] rfl))]
      rw [if_neg (by simp : ¬ Node.grade_documents = Node.generate)]
      by_cases hc1 : 10 < c + 1
      · rw [if_pos hc1]
      · rw [if_neg hc1]
        dsimp only
        apply ih
        · exact Or.inr (Or.inr rfl)
        · exact ⟨q, mergeState_question_some _ _ q rfl⟩
        · exact Or.inr (mergeState_documents_some _ _ [] rfl)
    · -- transform_query
      obtain ⟨sm2, q2, htr⟩ := safe_transform_query_shape o sm st q hq
      have hdocs : st.documents.getD [] = [] := by
        rcases hd with h | h <;> rw [h] <;> rfl
      rw [show runNode o sm Node.transform_query st = safe_transform_query o sm st from rfl,
        htr]
      dsimp only [nextNode]
      rw [if_neg (by simp : ¬ Node.transform_query = Node.generate)]
      by_cases hc1 : 10 < c + 1
      · rw [if_pos hc1]
      · rw [if_neg hc1]
        dsimp only
        apply ih
        · exact Or.inl rfl
        · exact ⟨q2, mergeState_question_some _ _ q2 rfl⟩
        · refine Or.inr (mergeState_documents_some _ _ [] ?_)
          show some (st.documents.getD []) = some []
          rw [hdocs]

/-- C6 (amended): when retrieval always returns zero documents and the
web-search fallback also returns zero, the conditional edge out of grading
routes to TransformQuery, so the workflow cycles without ever reaching the
Generate step: the driver cap ends the run with no final output and
`generate_response` answers the canned trouble-processing message - the
generate-node canned no-information text is not produced. -/
theorem C6_empty_retrieval (o : Oracle)
    (hss : ∀ q k, o.similarity_search q k = .ok [])
    (hdd : ∀ q n, o.ddgs_text q n = .ok [])
    (sm : StateManager) (question session_id : String)
    (hq : 3 ≤ (pyStrip question).length)
    (hfresh : smLookup sm session_id = none) :
    (runWorkflow o 11 (init_session sm session_id) Node.retrieve
        { question := some question, generation := none, documents := none,
          session_id := some session_id, error_message := none } 0).result = .ok none ∧
    (generate_response o sm question session_id).2 = trouble_processing_message := by
  have hrun := cycle_no_output o hss hdd 11 (init_session sm session_id) Node.retrieve
    { question := some question, generation := none, documents := none,
      session_id := some session_id, error_message := none } 0
    (Or.inl rfl) ⟨question, rfl⟩ (Or.inl rfl)
  refine ⟨hrun, ?_⟩
  have hh : (get_session_health (init_session sm session_id) session_id).healthy
      = true := by
    unfold init_session getOrInit
    rw [hfresh]
    unfold get_session_health
    rw [smLookup_smSet_self]
    rfl
  show (generate_response_aux o (3 + 1) sm question session_id).2
    = trouble_processing_message
  unfold generate_response_aux
  dsimp only
  rw [if_neg (by omega : ¬ (pyStrip question).length < 3)]
  rw [hh]
  rw [if_neg (by simp : ¬ (true = false))]
  rw [hrun]

/-- C6 (counterexample): with the concrete always-empty oracle the claimed
scenario outcome fails: `generate_response` answers the trouble-processing
message rather than the generate-node canned no-information text, and the
driver run ends with no final output at all (no Generate step consumed). -/
theorem C6_counterexample :
    (generate_response oEmpty [] "What is Assessli?" "s").2 = trouble_processing_message ∧
    (runWorkflow oEmpty 11 (init_session [] "s") Node.retrieve
        { question := some "What is Assessli?", generation := none, documents := none,
          session_id := some "s", error_message := none } 0).result = .ok none ∧
    trouble_processing_message ≠ no_info_message := by
  refine ⟨rfl, rfl, ?_⟩
  decide

/-- Witness for C6: the amended statement holds at the concrete empty
oracle, question and fresh session. -/
theorem C6_witness :
    3 ≤ (pyStrip "What is Assessli?").length ∧
    smLookup ([] : StateManager) "s" = none ∧
    (generate_response oEmpty [] "What is Assessli?" "s").2 = trouble_processing_message := by
  refine ⟨by decide, rfl, ?_⟩
  exact (C6_empty_retrieval oEmpty (fun q k => rfl) (fun q n => rfl) []
    "What is Assessli?" "s" (by decide) rfl).2
